import Mathlib

/-!
Shallow embedding of the chat client in src/chatbot-frontend/src/App.js.

The component state consists of the React state hooks declared at the top of
the App component: input, messages, turnId, chatSessionId, loading.  The two
stateful operations are changeEvent (one message exchange) and startSession
(session acquisition inside useEffect).  Network outcomes are modelled as an
explicit reply datatype: the fetch promise either rejects (network error), or
yields an HTTP response whose body either fails to parse as JSON or parses to
an object in which the field of interest may be present or absent.  The code
never reads the HTTP status, but the status is kept in the model so that
claims about non-2xx handling can be stated.
-/

namespace ChatCore

/-- Model of the JavaScript String.prototype.trim used by App.js: remove
leading and trailing whitespace.  Defined over the character list so that it
evaluates inside the kernel. -/
def jsTrim (s : String) : String :=
  String.mk (((s.data.dropWhile Char.isWhitespace).reverse.dropWhile Char.isWhitespace).reverse)

/-- The sender tag of a transcript entry, as used in App.js message objects. -/
inductive Sender where
  | user
  | bot
  | error
deriving DecidableEq, Repr

/-- A transcript entry.  In App.js the text of a bot message is data.response,
which can be the absent (undefined) JSON field, hence Option String. -/
structure Message where
  sender : Sender
  text : Option String
deriving DecidableEq, Repr

/-- The user message appended eagerly by changeEvent. -/
def userEcho (t : String) : Message := { sender := Sender.user, text := some t }

/-- The bot message built from data.response on the non-throwing path. -/
def botReply (r : Option String) : Message := { sender := Sender.bot, text := r }

/-- The fixed error message appended in the catch branch of changeEvent. -/
def errorNotice : Message := { sender := Sender.error, text := some "Error sending message." }

/-- Outcome of the fetch to the chat endpoint, as observable by changeEvent:
the fetch rejects, or response.json() rejects, or the parsed body carries an
optional response field.  The Nat is the HTTP status code of the response. -/
inductive ChatReply where
  | netError : ChatReply
  | badJson : Nat → ChatReply
  | json : Nat → Option String → ChatReply
deriving DecidableEq, Repr

/-- Outcome of the fetch to the session-start endpoint, as observable by
startSession; the optional field is chat_session_id of the parsed body. -/
inductive SessionReply where
  | netError : SessionReply
  | badJson : Nat → SessionReply
  | json : Nat → Option String → SessionReply
deriving DecidableEq, Repr

/-- The JSON body sent to the chat endpoint by changeEvent. -/
structure ChatRequest where
  user_message : String
  client_turn_id : String
  chat_session_id : String
deriving DecidableEq, Repr

/-- The JSON body sent to the session-start endpoint by startSession. -/
structure SessionRequest where
  pid : String
  study_id : String
  prolific_session_id : String
  qr_pre : String
  experiment_id : String
deriving DecidableEq, Repr

/-- The React state of the App component: the five useState hooks. -/
structure AppState where
  input : String
  messages : List Message
  turnId : Nat
  chatSessionId : Option String
  loading : Bool
deriving DecidableEq, Repr

/-- The initial hook values: useState(""), useState([]), useState(1),
useState(null), useState(true). -/
def initialState : AppState :=
  { input := "", messages := [], turnId := 1, chatSessionId := none, loading := true }

/-- changeEvent from App.js.  Given the current state and the network outcome
of its fetch, it returns the next state together with the chat request body it
issued (none when the trimmed input is empty and it returns early).  The body
hardcodes chat_session_id to the literal "XYZ"; the stored chatSessionId hook
is not read. -/
def changeEvent (s : AppState) (reply : ChatReply) : AppState × Option ChatRequest :=
  if jsTrim s.input = "" then (s, none)
  else
    let s1 : AppState := { s with messages := s.messages ++ [userEcho s.input] }
    let req : ChatRequest :=
      { user_message := s.input
        client_turn_id := toString s.turnId
        chat_session_id := "XYZ" }
    match reply with
    | ChatReply.netError =>
        ({ s1 with messages := s1.messages ++ [errorNotice] }, some req)
    | ChatReply.badJson _ =>
        ({ s1 with messages := s1.messages ++ [errorNotice] }, some req)
    | ChatReply.json _ respField =>
        ({ s1 with
            messages := s1.messages ++ [botReply respField]
            turnId := s1.turnId + 1
            input := "" }, some req)

set_option linter.unusedVariables false in
/-- The session-start request body built inside startSession.  It closes over
the two values parsed from the URL query string (PROLIFIC_PID and SESSION_ID,
each string-or-null) but uses neither: every field is a string literal, and
prolific_session_id is the literal string "sessionId". -/
def startSessionRequest (prolificId sessionIdParam : Option String) : SessionRequest :=
  { pid := "123456789"
    study_id := "study_001"
    prolific_session_id := "sessionId"
    qr_pre := "qr_001"
    experiment_id := "exp_001" }

/-- startSession from App.js.  On the non-throwing path it stores
data.chat_session_id (possibly the absent field) into the chatSessionId hook;
the catch branch only logs; the finally branch always clears loading. -/
def startSession (s : AppState) (reply : SessionReply) : AppState :=
  match reply with
  | SessionReply.netError => { s with loading := false }
  | SessionReply.badJson _ => { s with loading := false }
  | SessionReply.json _ field => { s with chatSessionId := field, loading := false }

/-- The disabled attribute of the send button in App.js is the negation of
input.trim(); it is true exactly when the trimmed input is empty. -/
def sendDisabled (s : AppState) : Bool := jsTrim s.input == ""

/-- The Session.status abstraction of the specification read off the code
state: Initializing while the loading hook is true, then Ready when a session
identifier was stored, Failed otherwise. -/
inductive SessionStatus where
  | Initializing
  | Ready
  | Failed
deriving DecidableEq, Repr

/-- Map the code state to the status of the Session data model of the spec. -/
def sessionStatus (s : AppState) : SessionStatus :=
  if s.loading then SessionStatus.Initializing
  else
    match s.chatSessionId with
    | some _ => SessionStatus.Ready
    | none => SessionStatus.Failed

/-- The UI events that drive the component: typing into the input box,
clicking send with a given network outcome, and the mount-time session start
with a given network outcome. -/
inductive Event where
  | setInput : String → Event
  | submit : ChatReply → Event
  | sessionStart : SessionReply → Event
deriving DecidableEq, Repr

/-- One event applied to the state, together with the chat request the event
issued, if any. -/
def step (s : AppState) (e : Event) : AppState × Option ChatRequest :=
  match e with
  | Event.setInput t => ({ s with input := t }, none)
  | Event.submit reply => changeEvent s reply
  | Event.sessionStart reply => (startSession s reply, none)

/-- Run a sequence of events, collecting the chat requests issued. -/
def run (s : AppState) : List Event → AppState × List ChatRequest
  | [] => (s, [])
  | e :: es => ((run (step s e).1 es).1, (step s e).2.toList ++ (run (step s e).1 es).2)

/-- One successful exchange as driven from the UI: the text typed, and the
status and optional response field of the parsed reply. -/
structure ExchangeInput where
  text : String
  status : Nat
  resp : Option String
deriving DecidableEq, Repr

/-- The event sequence of a list of successful exchanges: for each, type the
text and submit, with the backend answering a parsed JSON body. -/
def exchangeTrace : List ExchangeInput → List Event
  | [] => []
  | x :: xs => Event.setInput x.text :: Event.submit (ChatReply.json x.status x.resp) :: exchangeTrace xs

/-- The event sequence of a list of submission attempts: for each pair, type
the text and submit, with the backend outcome given by the second component. -/
def attemptTrace : List (String × ChatReply) → List Event
  | [] => []
  | p :: ps => Event.setInput p.1 :: Event.submit p.2 :: attemptTrace ps

/-! Concrete states reused by concrete theorems below. -/

/-- The component state right after typing "Hello" into a freshly mounted view. -/
def helloState : AppState := { initialState with input := "Hello" }

/-- The component state after a session start that failed with a network error,
followed by typing "Hello". -/
def failedHelloState : AppState :=
  { startSession initialState SessionReply.netError with input := "Hello" }

/-- The component state after a session start that stored the identifier
"abc123", followed by typing "Hello". -/
def readyHelloState : AppState :=
  { startSession initialState (SessionReply.json 200 (some "abc123")) with input := "Hello" }

/-! Unfolding lemmas for the branches of changeEvent. -/

lemma changeEvent_blank (s : AppState) (reply : ChatReply) (h : jsTrim s.input = "") :
    changeEvent s reply = (s, none) := by
  simp [changeEvent, h]

lemma changeEvent_json (s : AppState) (h : jsTrim s.input ≠ "") (st : Nat) (r : Option String) :
    changeEvent s (ChatReply.json st r) =
      ({ s with messages := s.messages ++ [userEcho s.input, botReply r], turnId := s.turnId + 1, input := "" },
       some { user_message := s.input, client_turn_id := toString s.turnId, chat_session_id := "XYZ" }) := by
  simp [changeEvent, h]

lemma changeEvent_netError (s : AppState) (h : jsTrim s.input ≠ "") :
    changeEvent s ChatReply.netError =
      ({ s with messages := s.messages ++ [userEcho s.input, errorNotice] },
       some { user_message := s.input, client_turn_id := toString s.turnId, chat_session_id := "XYZ" }) := by
  simp [changeEvent, h]

lemma changeEvent_badJson (s : AppState) (h : jsTrim s.input ≠ "") (st : Nat) :
    changeEvent s (ChatReply.badJson st) =
      ({ s with messages := s.messages ++ [userEcho s.input, errorNotice] },
       some { user_message := s.input, client_turn_id := toString s.turnId, chat_session_id := "XYZ" }) := by
  simp [changeEvent, h]

/-! Lemmas about event sequences. -/

lemma step_turnId_le (s : AppState) (e : Event) : s.turnId ≤ (step s e).1.turnId := by
  cases e with
  | setInput t => simp [step]
  | sessionStart r => cases r <;> simp [step, startSession]
  | submit r =>
    by_cases h : jsTrim s.input = ""
    · simp [step, changeEvent_blank s r h]
    · cases r with
      | netError => simp [step, changeEvent_netError s h]
      | badJson st => simp [step, changeEvent_badJson s h st]
      | json st resp => simp [step, changeEvent_json s h st resp]

lemma run_turnId_le (es : List Event) : ∀ s : AppState, s.turnId ≤ (run s es).1.turnId := by
  induction es with
  | nil => intro s; simp [run]
  | cons e es ih =>
    intro s
    calc s.turnId ≤ (step s e).1.turnId := step_turnId_le s e
      _ ≤ (run (step s e).1 es).1.turnId := ih (step s e).1
      _ = (run s (e :: es)).1.turnId := rfl

lemma run_exchangeTrace (xs : List ExchangeInput) :
    ∀ s : AppState, (∀ x ∈ xs, jsTrim x.text ≠ "") →
    (run s (exchangeTrace xs)).1.turnId = s.turnId + xs.length ∧
    (run s (exchangeTrace xs)).1.messages =
      s.messages ++ (xs.map (fun x => [userEcho x.text, botReply x.resp])).flatten := by
  induction xs with
  | nil => intro s h; simp [exchangeTrace, run]
  | cons x xs ih =>
    intro s h
    have hx : jsTrim x.text ≠ "" := h x (List.mem_cons_self x xs)
    have hrest : ∀ y ∈ xs, jsTrim y.text ≠ "" := fun y hy => h y (List.mem_cons_of_mem x hy)
    simp only [exchangeTrace, run, step]
    rw [changeEvent_json { s with input := x.text } hx x.status x.resp]
    obtain ⟨iht, ihm⟩ :=
      ih { s with messages := s.messages ++ [userEcho x.text, botReply x.resp],
                  turnId := s.turnId + 1, input := "" } hrest
    constructor
    · rw [iht]; simp; omega
    · rw [ihm]; simp [List.append_assoc]

lemma run_attemptTrace_blank (xs : List (String × ChatReply)) :
    ∀ s : AppState, (∀ p ∈ xs, jsTrim p.1 = "") →
    (run s (attemptTrace xs)).1.messages = s.messages ∧
    (run s (attemptTrace xs)).1.turnId = s.turnId ∧
    (run s (attemptTrace xs)).2 = [] := by
  induction xs with
  | nil => intro s h; simp [attemptTrace, run]
  | cons p ps ih =>
    intro s h
    have hp : jsTrim p.1 = "" := h p (List.mem_cons_self p ps)
    have hrest : ∀ q ∈ ps, jsTrim q.1 = "" := fun q hq => h q (List.mem_cons_of_mem p hq)
    simp only [attemptTrace, run, step]
    rw [changeEvent_blank { s with input := p.1 } p.2 hp]
    obtain ⟨ihm, iht, ihr⟩ := ih { s with input := p.1 } hrest
    exact ⟨ihm, iht, by simp [ihr]⟩

lemma flatten_pairs_length (xs : List ExchangeInput) :
    ((xs.map (fun x => [userEcho x.text, botReply x.resp])).flatten).length = 2 * xs.length := by
  induction xs with
  | nil => simp
  | cons x xs ih => simp [ih]; omega

/-! The claims. -/

/-- C1: the spec says the outgoing message envelope carries the session
identifier obtained at session start.  The code stores that identifier in the
chatSessionId hook but never reads it: after a successful session start that
stored "abc123", the envelope of the next exchange carries the hardcoded
literal "XYZ" instead. -/
theorem c1_envelope_ignores_stored_session_id :
    readyHelloState.chatSessionId = some "abc123" ∧
    (changeEvent readyHelloState (ChatReply.json 200 (some "Hi there!"))).2 =
      some { user_message := "Hello", client_turn_id := "1", chat_session_id := "XYZ" } ∧
    ("XYZ" : String) ≠ "abc123" := by
  exact ⟨rfl, by decide, by decide⟩

/-- C2 counterexample: after a session start that failed (status Failed), the
send button is still enabled for the non-blank input "Hello", and invoking the
exchange does issue an outgoing request, contrary to the claim that no
message-exchange request is ever issued. -/
theorem c2_counterexample_request_after_failed_start :
    sessionStatus failedHelloState = SessionStatus.Failed ∧
    sendDisabled failedHelloState = false ∧
    (changeEvent failedHelloState (ChatReply.json 200 (some "Hi"))).2 =
      some { user_message := "Hello", client_turn_id := "1", chat_session_id := "XYZ" } := by
  exact ⟨rfl, rfl, by decide⟩

set_option linter.unusedVariables false in
/-- C2 amended: sending is gated only on the input being non-blank, never on
the session status: in any state whose session is Failed, the send button is
disabled exactly when the trimmed input is empty, and a submission with
non-blank input issues a request carrying the hardcoded chat_session_id
"XYZ". -/
theorem c2_amended_sending_not_gated_on_session (s : AppState)
    (h : sessionStatus s = SessionStatus.Failed) :
    (sendDisabled s = true ↔ jsTrim s.input = "") ∧
    (∀ reply : ChatReply, jsTrim s.input ≠ "" →
      ∃ req : ChatRequest, (changeEvent s reply).2 = some req ∧ req.chat_session_id = "XYZ") := by
  constructor
  · simp [sendDisabled]
  · intro reply hne
    cases reply with
    | netError => exact ⟨_, congrArg Prod.snd (changeEvent_netError s hne), rfl⟩
    | badJson st => exact ⟨_, congrArg Prod.snd (changeEvent_badJson s hne st), rfl⟩
    | json st r => exact ⟨_, congrArg Prod.snd (changeEvent_json s hne st r), rfl⟩

/-- C2 witness: the amended statement instantiated after a network-failed
session start with input "Hello", the request exhibited for a concrete
reply. -/
theorem c2_amended_witness :
    (sendDisabled failedHelloState = true ↔ jsTrim failedHelloState.input = "") ∧
    (∃ req : ChatRequest,
      (changeEvent failedHelloState (ChatReply.json 200 (some "Hi"))).2 = some req ∧
      req.chat_session_id = "XYZ") :=
  ⟨(c2_amended_sending_not_gated_on_session failedHelloState (by decide)).1,
   (c2_amended_sending_not_gated_on_session failedHelloState (by decide)).2
     (ChatReply.json 200 (some "Hi")) (by decide)⟩

/-- C3 counterexample: with a ready session and input "Hello", a parsed reply
with HTTP status 500 and no response field is treated as success: the bot
message (with absent text) is appended, no error message appears, and the turn
counter advances from 1 to 2, contrary to the claim. -/
theorem c3_counterexample_non2xx_treated_as_success :
    readyHelloState.turnId = 1 ∧
    (changeEvent readyHelloState (ChatReply.json 500 none)).1.turnId = 2 ∧
    (changeEvent readyHelloState (ChatReply.json 500 none)).1.messages =
      [userEcho "Hello", botReply none] ∧
    (∀ m ∈ (changeEvent readyHelloState (ChatReply.json 500 none)).1.messages,
      m.sender ≠ Sender.error) := by
  exact ⟨rfl, by decide, by decide, by decide⟩

/-- C3 amended: only a rejected fetch or a body that fails to parse as JSON is
treated as exchange failure; then exactly one error message with the fixed
notice follows the user echo and the turn counter is unchanged.  An HTTP
error status or a missing response field in a parseable body is instead
treated as success. -/
theorem c3_amended_only_thrown_failures (s : AppState) (reply : ChatReply)
    (h : jsTrim s.input ≠ "")
    (hf : reply = ChatReply.netError ∨ ∃ st, reply = ChatReply.badJson st) :
    (changeEvent s reply).1.messages = s.messages ++ [userEcho s.input, errorNotice] ∧
    (changeEvent s reply).1.turnId = s.turnId := by
  rcases hf with rfl | ⟨st, rfl⟩
  · simp [changeEvent_netError s h]
  · simp [changeEvent_badJson s h st]

/-- C3 witness: the amended statement instantiated at a fresh view with input
"Hello" and a network failure. -/
theorem c3_amended_witness :
    (changeEvent helloState ChatReply.netError).1.messages =
      helloState.messages ++ [userEcho helloState.input, errorNotice] ∧
    (changeEvent helloState ChatReply.netError).1.turnId = helloState.turnId :=
  c3_amended_only_thrown_failures helloState ChatReply.netError (by decide) (Or.inl rfl)

/-- C4: from the initial state, a sequence of N successful exchanges with
non-blank texts leaves the turn counter at 1 + N and a transcript of exactly
2N messages alternating user, bot, user, bot, namely the flattened list of
user-echo/bot-reply pairs. -/
theorem c4_turn_and_transcript_after_successes (xs : List ExchangeInput)
    (h : ∀ x ∈ xs, jsTrim x.text ≠ "") :
    (run initialState (exchangeTrace xs)).1.turnId = 1 + xs.length ∧
    (run initialState (exchangeTrace xs)).1.messages.length = 2 * xs.length ∧
    (run initialState (exchangeTrace xs)).1.messages =
      (xs.map (fun x => [userEcho x.text, botReply x.resp])).flatten := by
  obtain ⟨ht, hm⟩ := run_exchangeTrace xs initialState h
  refine ⟨?_, ?_, ?_⟩
  · rw [ht]; simp [initialState]
  · rw [hm]; simp [initialState, flatten_pairs_length xs]
  · rw [hm]; simp [initialState]

/-- C4 witness: Scenario A, one successful exchange of "Hello" answered by
"Hi there!". -/
theorem c4_witness :
    (run initialState (exchangeTrace [⟨"Hello", 200, some "Hi there!"⟩])).1.turnId = 1 + 1 ∧
    (run initialState (exchangeTrace [⟨"Hello", 200, some "Hi there!"⟩])).1.messages.length =
      2 * 1 ∧
    (run initialState (exchangeTrace [⟨"Hello", 200, some "Hi there!"⟩])).1.messages =
      (([⟨"Hello", 200, some "Hi there!"⟩] : List ExchangeInput).map
        (fun x => [userEcho x.text, botReply x.resp])).flatten :=
  c4_turn_and_transcript_after_successes [⟨"Hello", 200, some "Hi there!"⟩] (by decide)

/-- C5 counterexample: a session-start reply with HTTP status 500 whose body
does contain chat_session_id "abc" is treated as success: the identifier is
stored and the status becomes Ready, contrary to the claim that any
non-success status is treated as failure. -/
theorem c5_counterexample_non2xx_start_stores_id :
    (startSession initialState (SessionReply.json 500 (some "abc"))).chatSessionId = some "abc" ∧
    sessionStatus (startSession initialState (SessionReply.json 500 (some "abc"))) =
      SessionStatus.Ready := by
  exact ⟨rfl, rfl⟩

/-- C5 amended: session start fails (no identifier, status Failed) only on a
rejected fetch or an unparseable body; a parseable body missing
chat_session_id also leaves no identifier; but the HTTP status is ignored: any
parseable body carrying chat_session_id is stored, whatever the status. -/
theorem c5_amended_start_ignores_status (st : Nat) :
    ((startSession initialState SessionReply.netError).chatSessionId = none ∧
      sessionStatus (startSession initialState SessionReply.netError) = SessionStatus.Failed) ∧
    ((startSession initialState (SessionReply.badJson st)).chatSessionId = none ∧
      sessionStatus (startSession initialState (SessionReply.badJson st)) = SessionStatus.Failed) ∧
    ((startSession initialState (SessionReply.json st none)).chatSessionId = none ∧
      sessionStatus (startSession initialState (SessionReply.json st none)) =
        SessionStatus.Failed) ∧
    (∀ sid : String,
      (startSession initialState (SessionReply.json st (some sid))).chatSessionId = some sid) := by
  exact ⟨⟨rfl, rfl⟩, ⟨rfl, rfl⟩, ⟨rfl, rfl⟩, fun sid => rfl⟩

/-- C5 witness: the amended statement instantiated at status 500 and the
identifier "abc123". -/
theorem c5_amended_witness :
    ((startSession initialState SessionReply.netError).chatSessionId = none ∧
      sessionStatus (startSession initialState SessionReply.netError) = SessionStatus.Failed) ∧
    ((startSession initialState (SessionReply.badJson 500)).chatSessionId = none ∧
      sessionStatus (startSession initialState (SessionReply.badJson 500)) =
        SessionStatus.Failed) ∧
    ((startSession initialState (SessionReply.json 500 none)).chatSessionId = none ∧
      sessionStatus (startSession initialState (SessionReply.json 500 none)) =
        SessionStatus.Failed) ∧
    (startSession initialState (SessionReply.json 500 (some "abc123"))).chatSessionId =
      some "abc123" :=
  ⟨(c5_amended_start_ignores_status 500).1,
   (c5_amended_start_ignores_status 500).2.1,
   (c5_amended_start_ignores_status 500).2.2.1,
   (c5_amended_start_ignores_status 500).2.2.2 "abc123"⟩

/-- C6: a failed exchange leaves the turn counter unchanged; any later
successful exchange performed while the counter still holds that value sends
that same unadvanced number as client_turn_id and only then advances the
counter by one; and along any event sequence the counter never decreases. -/
theorem c6_failed_exchange_preserves_turn (s : AppState) (reply : ChatReply)
    (hf : reply = ChatReply.netError ∨ ∃ st, reply = ChatReply.badJson st) :
    (changeEvent s reply).1.turnId = s.turnId ∧
    (∀ s2 : AppState, s2.turnId = s.turnId → jsTrim s2.input ≠ "" →
      ∀ (st : Nat) (resp : Option String),
        (changeEvent s2 (ChatReply.json st resp)).2 =
          some { user_message := s2.input, client_turn_id := toString s.turnId,
                 chat_session_id := "XYZ" } ∧
        (changeEvent s2 (ChatReply.json st resp)).1.turnId = s.turnId + 1) ∧
    (∀ (s0 : AppState) (es : List Event), s0.turnId ≤ (run s0 es).1.turnId) := by
  refine ⟨?_, ?_, fun s0 es => run_turnId_le es s0⟩
  · by_cases h : jsTrim s.input = ""
    · simp [changeEvent_blank s reply h]
    · rcases hf with rfl | ⟨st, rfl⟩
      · simp [changeEvent_netError s h]
      · simp [changeEvent_badJson s h st]
  · intro s2 ht hne st resp
    rw [changeEvent_json s2 hne st resp]
    exact ⟨by rw [ht], by rw [ht]⟩

/-- C6 witness: a network-failed exchange of "Hello" at turn 1 keeps the
counter at 1; retyping "Hello" and succeeding sends client_turn_id "1" and
moves the counter to 2; the counter never decreases along any trace. -/
theorem c6_witness :
    (changeEvent helloState ChatReply.netError).1.turnId = helloState.turnId ∧
    ((changeEvent helloState (ChatReply.json 200 (some "Hi there!"))).2 =
        some { user_message := helloState.input, client_turn_id := toString helloState.turnId,
               chat_session_id := "XYZ" } ∧
      (changeEvent helloState (ChatReply.json 200 (some "Hi there!"))).1.turnId =
        helloState.turnId + 1) ∧
    (∀ (s0 : AppState) (es : List Event), s0.turnId ≤ (run s0 es).1.turnId) :=
  ⟨(c6_failed_exchange_preserves_turn helloState ChatReply.netError (Or.inl rfl)).1,
   (c6_failed_exchange_preserves_turn helloState ChatReply.netError (Or.inl rfl)).2.1
     helloState rfl (by decide) 200 (some "Hi there!"),
   (c6_failed_exchange_preserves_turn helloState ChatReply.netError (Or.inl rfl)).2.2⟩

/-- C7: submitting whitespace-only text any number of times, from any state,
appends nothing to the transcript, issues no request, and leaves the turn
counter unchanged. -/
theorem c7_blank_attempts_are_noops (s : AppState) (xs : List (String × ChatReply))
    (h : ∀ p ∈ xs, jsTrim p.1 = "") :
    (run s (attemptTrace xs)).1.messages = s.messages ∧
    (run s (attemptTrace xs)).1.turnId = s.turnId ∧
    (run s (attemptTrace xs)).2 = [] :=
  run_attemptTrace_blank xs s h

/-- C7 witness: Scenario D, one whitespace-only attempt from the initial
state. -/
theorem c7_witness :
    (run initialState (attemptTrace [("   ", ChatReply.json 200 (some "Hi"))])).1.messages =
      initialState.messages ∧
    (run initialState (attemptTrace [("   ", ChatReply.json 200 (some "Hi"))])).1.turnId =
      initialState.turnId ∧
    (run initialState (attemptTrace [("   ", ChatReply.json 200 (some "Hi"))])).2 = [] :=
  c7_blank_attempts_are_noops initialState [("   ", ChatReply.json 200 (some "Hi"))] (by decide)

/-- C8: the transcript is append-only: every event leaves the previous
transcript as an unchanged initial segment, and an exchange with non-blank
input appends the user echo first, followed by exactly one bot or error
message. -/
theorem c8_transcript_append_only (s : AppState) :
    (∀ e : Event, ∃ tail : List Message, (step s e).1.messages = s.messages ++ tail) ∧
    (∀ reply : ChatReply, jsTrim s.input ≠ "" →
      ∃ second : Message,
        (changeEvent s reply).1.messages = s.messages ++ [userEcho s.input, second] ∧
        (second.sender = Sender.bot ∨ second.sender = Sender.error)) := by
  constructor
  · intro e
    cases e with
    | setInput t => exact ⟨[], by simp [step]⟩
    | sessionStart r => cases r <;> exact ⟨[], by simp [step, startSession]⟩
    | submit r =>
      by_cases h : jsTrim s.input = ""
      · exact ⟨[], by simp [step, changeEvent_blank s r h]⟩
      · cases r with
        | netError =>
          exact ⟨[userEcho s.input, errorNotice], by simp [step, changeEvent_netError s h]⟩
        | badJson st =>
          exact ⟨[userEcho s.input, errorNotice], by simp [step, changeEvent_badJson s h st]⟩
        | json st resp =>
          exact ⟨[userEcho s.input, botReply resp], by simp [step, changeEvent_json s h st resp]⟩
  · intro reply h
    cases reply with
    | netError => exact ⟨errorNotice, by simp [changeEvent_netError s h], Or.inr rfl⟩
    | badJson st => exact ⟨errorNotice, by simp [changeEvent_badJson s h st], Or.inr rfl⟩
    | json st resp => exact ⟨botReply resp, by simp [changeEvent_json s h st resp], Or.inl rfl⟩

/-- C8 witness: instantiated at a fresh view holding "Hello", for the submit
event with a network failure. -/
theorem c8_witness :
    (∃ tail : List Message,
      (step helloState (Event.submit ChatReply.netError)).1.messages =
        helloState.messages ++ tail) ∧
    (∃ second : Message,
      (changeEvent helloState ChatReply.netError).1.messages =
        helloState.messages ++ [userEcho helloState.input, second] ∧
      (second.sender = Sender.bot ∨ second.sender = Sender.error)) :=
  ⟨(c8_transcript_append_only helloState).1 (Event.submit ChatReply.netError),
   (c8_transcript_append_only helloState).2 ChatReply.netError (by decide)⟩

/-- C9: the session-start request body is one fixed constant, identical for
any two values of the PROLIFIC_PID and SESSION_ID query parameters; the
parsed URL values are never used. -/
theorem c9_start_request_constant (p1 s1 p2 s2 : Option String) :
    startSessionRequest p1 s1 = startSessionRequest p2 s2 ∧
    startSessionRequest p1 s1 =
      { pid := "123456789", study_id := "study_001", prolific_session_id := "sessionId",
        qr_pre := "qr_001", experiment_id := "exp_001" } :=
  ⟨rfl, rfl⟩

/-- C9 witness: instantiated at two distinct pairs of query parameters. -/
theorem c9_witness :
    startSessionRequest (some "participantA") (some "sessA") =
      startSessionRequest none (some "sessB") ∧
    startSessionRequest (some "participantA") (some "sessA") =
      { pid := "123456789", study_id := "study_001", prolific_session_id := "sessionId",
        qr_pre := "qr_001", experiment_id := "exp_001" } :=
  c9_start_request_constant (some "participantA") (some "sessA") none (some "sessB")

/-- C10: the pending input is cleared only by a successful exchange: a blank
submission leaves the whole state unchanged, a failed exchange leaves the
input holding the submitted text, and a successful exchange resets it to the
empty string. -/
theorem c10_input_cleared_only_on_success (s : AppState) (reply : ChatReply) :
    (jsTrim s.input = "" → (changeEvent s reply).1 = s) ∧
    (jsTrim s.input ≠ "" →
      ((reply = ChatReply.netError ∨ ∃ st, reply = ChatReply.badJson st) →
        (changeEvent s reply).1.input = s.input) ∧
      (∀ (st : Nat) (resp : Option String),
        (changeEvent s (ChatReply.json st resp)).1.input = "")) := by
  constructor
  · intro h; rw [changeEvent_blank s reply h]
  · intro h
    constructor
    · rintro (rfl | ⟨st, rfl⟩)
      · simp [changeEvent_netError s h]
      · simp [changeEvent_badJson s h st]
    · intro st resp; simp [changeEvent_json s h st resp]

/-- C10 witness: a whitespace-only submission leaves the state unchanged, a
network-failed exchange of "Hello" keeps the input at "Hello", and a
successful exchange clears it. -/
theorem c10_witness :
    (changeEvent { initialState with input := "   " } ChatReply.netError).1 =
      { initialState with input := "   " } ∧
    (changeEvent helloState ChatReply.netError).1.input = helloState.input ∧
    (changeEvent helloState (ChatReply.json 200 (some "Hi"))).1.input = "" :=
  ⟨(c10_input_cleared_only_on_success { initialState with input := "   " }
      ChatReply.netError).1 (by decide),
   ((c10_input_cleared_only_on_success helloState ChatReply.netError).2 (by decide)).1
     (Or.inl rfl),
   ((c10_input_cleared_only_on_success helloState (ChatReply.json 200 (some "Hi"))).2
     (by decide)).2 200 (some "Hi")⟩

end ChatCore
